import Mathlib

/-!
Verification of the textRefine score-engine vocabulary evaluator.

Shallow embedding of `src/vocabulary/evaluator.py`.  Python floats are
modelled as exact rationals (`ℚ`); Python's builtin `round(x, 3)` is
modelled as decimal round-half-to-even at three decimal places, the
semantics the module documentation ascribes to it.  The three
collaborator checkers (`LexicalDiversityCalculator`, `SophisticationChecker`,
`PrecisionChecker`) are black boxes outside this module: they are modelled
as arbitrary functions that either return a result record or fail with an
error value (a Python call either returns or raises), so the evaluator is
parameterised by their behaviour.  Python exceptions are modelled with
`Except`: a raised exception short-circuits the remaining statements and
becomes the call's outcome.
-/

namespace ScoreEngine

/-- Modelled from the spec: `vocabulary/constants.py` is not part of the
given sources; the spec's worked scenario fixes the three weights at
(0.3, 0.3, 0.4) for diversity, sophistication, precision. -/
def LEXICAL_DIVERSITY_WEIGHT : ℚ := 3 / 10

/-- Modelled from the spec: sophistication weight 0.3. -/
def SOPHISTICATION_WEIGHT : ℚ := 3 / 10

/-- Modelled from the spec: precision weight 0.4. -/
def PRECISION_WEIGHT : ℚ := 2 / 5

/-- Round a rational to the nearest integer, ties going to the even
integer: the semantics of Python's builtin `round` on an exact value. -/
def roundHalfEvenInt (q : ℚ) : ℤ :=
  if q - ⌊q⌋ < 1 / 2 then ⌊q⌋
  else if 1 / 2 < q - ⌊q⌋ then ⌊q⌋ + 1
  else if ⌊q⌋ % 2 = 0 then ⌊q⌋ else ⌊q⌋ + 1

/-- Python's `round(x, 3)` on an exact rational value: round-half-to-even
at three decimal places. -/
def round3 (q : ℚ) : ℚ := (roundHalfEvenInt (q * 1000) : ℚ) / 1000

/-- Modelled from the spec: the lexical-diversity sub-result record
(`vocabulary/models.py` is not part of the given sources); the evaluator
reads its `ttr` field. -/
structure LexicalDiversityResult where
  ttr : ℚ
deriving DecidableEq

/-- Modelled from the spec: the sophistication sub-result record; the
evaluator reads its `score` field. -/
structure SophisticationResult where
  score : ℚ
deriving DecidableEq

/-- Modelled from the spec: the precision sub-result record; the evaluator
reads its `score` field. -/
structure PrecisionResult where
  score : ℚ
deriving DecidableEq

/-- The `VocabularyResult` record built by `evaluate` (fields as
constructed at `evaluator.py` lines 61-66). -/
structure VocabularyResult where
  score : ℚ
  sophistication : SophisticationResult
  precision : PrecisionResult
  lexical_diversity : LexicalDiversityResult
deriving DecidableEq

/-- The evaluator object: it owns the three checkers built in `__init__`.
Each checker is a black-box function of the arguments the evaluator passes
it, returning its record or raising an error of type `ε`. -/
structure VocabularyEvaluator (ε : Type) where
  lexical_diversity_checker : String → Except ε LexicalDiversityResult
  sophistication_checker :
    String → Finset (String × String) → Except ε SophisticationResult
  precision_checker : String → Except ε PrecisionResult

variable {ε : Type}

/-- The method `VocabularyEvaluator.evaluate` (`evaluator.py` lines
28-66): compute the three sub-results in order, combine the scalar scores
with the three weights, round to 3 decimals, and build the aggregated
record. -/
def VocabularyEvaluator.evaluate (self : VocabularyEvaluator ε) (text : String)
    (replacement_words : Finset (String × String)) :
    Except ε VocabularyResult := do
  let lexical_diversity_score ← self.lexical_diversity_checker text
  let sophistication_result ←
    self.sophistication_checker text replacement_words
  let precision_result ← self.precision_checker text
  let combined_score :=
    lexical_diversity_score.ttr * LEXICAL_DIVERSITY_WEIGHT
      + sophistication_result.score * SOPHISTICATION_WEIGHT
      + precision_result.score * PRECISION_WEIGHT
  return ⟨round3 combined_score, sophistication_result, precision_result,
    lexical_diversity_score⟩

/-- The default value of the `replacement_words` parameter: Python
evaluates `set()` once at function-definition time and an omitted argument
uses that (empty) set.  The body never mutates it, so it stays empty. -/
def defaultReplacementWords : Finset (String × String) := ∅

/-- A call `evaluate(text)` with the `replacement_words` argument omitted:
it uses the shared default set. -/
def VocabularyEvaluator.evaluateNoArg (self : VocabularyEvaluator ε)
    (text : String) : Except ε VocabularyResult :=
  self.evaluate text defaultReplacementWords

/-- One collaborator invocation, recorded with the exact arguments the
evaluator passes at the call site: `compute(text)` on the diversity
checker, `evaluate(text, replacement_words)` on the sophistication
checker, `evaluate(text)` on the precision checker. -/
inductive CallEvent where
  | diversity (text : String)
  | sophistication (text : String)
      (replacement_words : Finset (String × String))
  | precision (text : String)
deriving DecidableEq

/-- The method `evaluate` instrumented with the sequence of collaborator
invocations it performs, in order; a raised error stops the sequence at
the failing call, exactly as the straight-line Python does. -/
def VocabularyEvaluator.evaluateTrace (self : VocabularyEvaluator ε)
    (text : String) (replacement_words : Finset (String × String)) :
    Except ε VocabularyResult × List CallEvent :=
  match self.lexical_diversity_checker text with
  | .error e => (.error e, [.diversity text])
  | .ok lexical_diversity_score =>
    match self.sophistication_checker text replacement_words with
    | .error e =>
        (.error e, [.diversity text, .sophistication text replacement_words])
    | .ok sophistication_result =>
      match self.precision_checker text with
      | .error e =>
          (.error e, [.diversity text,
            .sophistication text replacement_words, .precision text])
      | .ok precision_result =>
          (.ok ⟨round3 (lexical_diversity_score.ttr * LEXICAL_DIVERSITY_WEIGHT
              + sophistication_result.score * SOPHISTICATION_WEIGHT
              + precision_result.score * PRECISION_WEIGHT),
            sophistication_result, precision_result, lexical_diversity_score⟩,
           [.diversity text, .sophistication text replacement_words,
            .precision text])

/-- The method `evaluate` with the mutable state threaded explicitly: the
evaluator object (its three checker fields) and the caller's
`replacement_words` set before and after the call.  Every statement of the
Python body reads this state and none writes it, so each step passes it
along unchanged. -/
def VocabularyEvaluator.evaluateState (self : VocabularyEvaluator ε)
    (text : String) (replacement_words : Finset (String × String)) :
    Except ε VocabularyResult
      × (VocabularyEvaluator ε × Finset (String × String)) :=
  let s0 := (self, replacement_words)
  match s0.1.lexical_diversity_checker text with
  | .error e => (.error e, s0)
  | .ok lexical_diversity_score =>
    match s0.1.sophistication_checker text s0.2 with
    | .error e => (.error e, s0)
    | .ok sophistication_result =>
      match s0.1.precision_checker text with
      | .error e => (.error e, s0)
      | .ok precision_result =>
          (.ok ⟨round3 (lexical_diversity_score.ttr * LEXICAL_DIVERSITY_WEIGHT
              + sophistication_result.score * SOPHISTICATION_WEIGHT
              + precision_result.score * PRECISION_WEIGHT),
            sophistication_result, precision_result, lexical_diversity_score⟩,
           s0)

/-! Concrete fixtures used by witnesses and counterexamples: the mocked
collaborators of the spec's worked scenario (ttr 1.0, sophistication 0.5,
precision 0.8), a variant that only agrees with them on the sample text,
an all-ones variant, and one whose diversity checker raises. -/

/-- The sample text of the spec's worked scenario. -/
def sampleText : String := "the quick brown fox"

/-- A nonempty replacement set used to exercise argument passing. -/
def sampleReplacements : Finset (String × String) := {("colour", "color")}

/-- Mocked collaborators of the spec's worked scenario. -/
def mockEvaluator : VocabularyEvaluator Unit :=
  ⟨fun _ => .ok ⟨1⟩, fun _ _ => .ok ⟨1 / 2⟩, fun _ => .ok ⟨4 / 5⟩⟩

/-- The result the worked scenario expects from `mockEvaluator`. -/
def mockResult : VocabularyResult := ⟨77 / 100, ⟨1 / 2⟩, ⟨4 / 5⟩, ⟨1⟩⟩

/-- A second evaluator that returns the same outputs as `mockEvaluator`
on `sampleText` but different outputs on other texts. -/
def mockEvaluator2 : VocabularyEvaluator Unit :=
  ⟨fun t => .ok ⟨if t = sampleText then 1 else 0⟩,
   fun _ _ => .ok ⟨1 / 2⟩, fun _ => .ok ⟨4 / 5⟩⟩

/-- Mocked collaborators all returning score 1. -/
def onesEvaluator : VocabularyEvaluator Unit :=
  ⟨fun _ => .ok ⟨1⟩, fun _ _ => .ok ⟨1⟩, fun _ => .ok ⟨1⟩⟩

/-- An evaluator whose diversity checker raises. -/
def failingDiversityEvaluator : VocabularyEvaluator Unit :=
  ⟨fun _ => .error (), fun _ _ => .ok ⟨1 / 2⟩, fun _ => .ok ⟨4 / 5⟩⟩

/-! Helper lemmas shared by several claims. -/

/-- When the three checkers return, `evaluate` returns the aggregated
record built from exactly those sub-results. -/
theorem evaluate_ok (ev : VocabularyEvaluator ε) (t : String)
    (rw : Finset (String × String)) (d : LexicalDiversityResult)
    (s : SophisticationResult) (p : PrecisionResult)
    (hd : ev.lexical_diversity_checker t = .ok d)
    (hs : ev.sophistication_checker t rw = .ok s)
    (hp : ev.precision_checker t = .ok p) :
    ev.evaluate t rw = .ok ⟨round3 (d.ttr * LEXICAL_DIVERSITY_WEIGHT
      + s.score * SOPHISTICATION_WEIGHT + p.score * PRECISION_WEIGHT),
      s, p, d⟩ := by
  simp [VocabularyEvaluator.evaluate, hd, hs, hp, Except.instMonad, Except.pure,
    Except.bind]

/-- The instrumented run computes the same outcome as `evaluate`. -/
theorem evaluateTrace_fst (ev : VocabularyEvaluator ε) (t : String)
    (rw : Finset (String × String)) :
    (ev.evaluateTrace t rw).1 = ev.evaluate t rw := by
  unfold VocabularyEvaluator.evaluateTrace VocabularyEvaluator.evaluate
  rcases h1 : ev.lexical_diversity_checker t with e | d <;>
    simp [h1, Except.instMonad, Except.bind, Except.pure]
  rcases h2 : ev.sophistication_checker t rw with e | s <;>
    simp [h2, Except.instMonad, Except.bind, Except.pure]
  rcases h3 : ev.precision_checker t with e | p <;>
    simp [h3, Except.instMonad, Except.bind, Except.pure]

/-- Evaluating the scenario fixture yields the expected record. -/
theorem mockEvaluator_evaluate :
    mockEvaluator.evaluate sampleText ∅ = .ok mockResult := by
  have h := evaluate_ok mockEvaluator sampleText ∅ ⟨1⟩ ⟨1 / 2⟩ ⟨4 / 5⟩
    rfl rfl rfl
  rw [h, mockResult]
  norm_num [round3, roundHalfEvenInt, LEXICAL_DIVERSITY_WEIGHT,
    SOPHISTICATION_WEIGHT, PRECISION_WEIGHT]

/-- Evaluating the all-ones fixture yields the all-ones record. -/
theorem onesEvaluator_evaluate :
    onesEvaluator.evaluate sampleText ∅ = .ok ⟨1, ⟨1⟩, ⟨1⟩, ⟨1⟩⟩ := by
  have h := evaluate_ok onesEvaluator sampleText ∅ ⟨1⟩ ⟨1⟩ ⟨1⟩ rfl rfl rfl
  rw [h]
  norm_num [round3, roundHalfEvenInt, LEXICAL_DIVERSITY_WEIGHT,
    SOPHISTICATION_WEIGHT, PRECISION_WEIGHT]

/-- Rounding never goes below the floor of the argument. -/
theorem le_roundHalfEvenInt (q : ℚ) : ⌊q⌋ ≤ roundHalfEvenInt q := by
  unfold roundHalfEvenInt
  split_ifs <;> omega

/-- Rounding never exceeds the floor of the argument plus one. -/
theorem roundHalfEvenInt_le_floor_add_one (q : ℚ) :
    roundHalfEvenInt q ≤ ⌊q⌋ + 1 := by
  unfold roundHalfEvenInt
  split_ifs <;> omega

/-- Rounding respects an integer upper bound of the argument. -/
theorem roundHalfEvenInt_le (q : ℚ) (n : ℤ) (h : q ≤ (n : ℚ)) :
    roundHalfEvenInt q ≤ n := by
  have hfn : ⌊q⌋ ≤ n := by
    have h0 := Int.floor_le_floor h
    simpa using h0
  rcases lt_or_eq_of_le hfn with hlt | heq
  · have h1 := roundHalfEvenInt_le_floor_add_one q
    omega
  · have h1 : (n : ℚ) ≤ q := by
      rw [← heq]
      exact Int.floor_le q
    have h2 : q = (n : ℚ) := le_antisymm h h1
    rw [h2]
    unfold roundHalfEvenInt
    rw [Int.floor_intCast]
    norm_num

/-- Rounding a nonnegative rational to three decimals is nonnegative. -/
theorem round3_nonneg (q : ℚ) (h : 0 ≤ q) : 0 ≤ round3 q := by
  unfold round3
  apply div_nonneg _ (by norm_num)
  have h1 := le_roundHalfEvenInt (q * 1000)
  have h2 : (0 : ℤ) ≤ ⌊q * 1000⌋ := Int.floor_nonneg.mpr (by positivity)
  exact_mod_cast le_trans h2 h1

/-- Rounding a rational at most one to three decimals is at most one. -/
theorem round3_le_one (q : ℚ) (h : q ≤ 1) : round3 q ≤ 1 := by
  unfold round3
  rw [div_le_one (by norm_num)]
  have h1 : roundHalfEvenInt (q * 1000) ≤ 1000 := by
    apply roundHalfEvenInt_le
    push_cast
    linarith
  exact_mod_cast h1

/-! Claim theorems. -/

/-- C1: for every text and every combination of collaborator outputs, the
score field of the Result returned by `evaluate` equals
`round(ttr*W1 + soph.score*W2 + prec.score*W3, 3)`, where the rounding is
round-half-to-even at three decimal places. -/
theorem evaluate_score_formula (ev : VocabularyEvaluator ε) (t : String)
    (rw : Finset (String × String)) (d : LexicalDiversityResult)
    (s : SophisticationResult) (p : PrecisionResult)
    (hd : ev.lexical_diversity_checker t = .ok d)
    (hs : ev.sophistication_checker t rw = .ok s)
    (hp : ev.precision_checker t = .ok p) :
    ∀ r, ev.evaluate t rw = .ok r →
      r.score = round3 (d.ttr * LEXICAL_DIVERSITY_WEIGHT
        + s.score * SOPHISTICATION_WEIGHT + p.score * PRECISION_WEIGHT) := by
  intro r h
  rw [evaluate_ok ev t rw d s p hd hs hp] at h
  injection h with h
  rw [← h]

/-- Witness for C1 at the worked-scenario fixture. -/
theorem evaluate_score_formula_witness :
    mockResult.score = round3 ((1 : ℚ) * LEXICAL_DIVERSITY_WEIGHT
      + (1 / 2 : ℚ) * SOPHISTICATION_WEIGHT
      + (4 / 5 : ℚ) * PRECISION_WEIGHT) :=
  evaluate_score_formula mockEvaluator sampleText ∅ ⟨1⟩ ⟨1 / 2⟩ ⟨4 / 5⟩
    rfl rfl rfl mockResult mockEvaluator_evaluate

/-- C2 counterexample: when the diversity checker raises, the
sophistication and precision checkers are invoked zero times, not exactly
once. -/
theorem evaluate_calls_once_cex :
    (failingDiversityEvaluator.evaluateTrace sampleText ∅).2
        = [CallEvent.diversity sampleText]
      ∧ (failingDiversityEvaluator.evaluateTrace sampleText ∅).2.count
          (CallEvent.precision sampleText) ≠ 1 := by
  constructor
  · rfl
  · intro h
    simp [VocabularyEvaluator.evaluateTrace, failingDiversityEvaluator,
      List.count_cons, sampleText] at h

/-- C2 (amended): each collaborator is invoked at most once per call, the
invocations that do occur are an initial segment of the fixed order
(diversity, sophistication, precision) cut at the first failing call, and
when all three calls return, each collaborator is invoked exactly once in
that order. -/
theorem evaluate_calls_in_order (ev : VocabularyEvaluator ε) (t : String)
    (rw : Finset (String × String)) :
    (∃ n, (ev.evaluateTrace t rw).2
        = [CallEvent.diversity t, CallEvent.sophistication t rw,
           CallEvent.precision t].take n)
    ∧ (∀ d s p, ev.lexical_diversity_checker t = .ok d →
        ev.sophistication_checker t rw = .ok s →
        ev.precision_checker t = .ok p →
        (ev.evaluateTrace t rw).2
          = [CallEvent.diversity t, CallEvent.sophistication t rw,
             CallEvent.precision t]) := by
  constructor
  · unfold VocabularyEvaluator.evaluateTrace
    rcases h1 : ev.lexical_diversity_checker t with e | d
    · exact ⟨1, by simp⟩
    · rcases h2 : ev.sophistication_checker t rw with e | s
      · exact ⟨2, by simp⟩
      · rcases h3 : ev.precision_checker t with e | p
        · exact ⟨3, by simp⟩
        · exact ⟨3, by simp⟩
  · intro d s p hd hs hp
    unfold VocabularyEvaluator.evaluateTrace
    simp [hd, hs, hp]

/-- Witness for C2 (amended) at the worked-scenario fixture. -/
theorem evaluate_calls_in_order_witness :
    (mockEvaluator.evaluateTrace sampleText ∅).2
      = [CallEvent.diversity sampleText,
         CallEvent.sophistication sampleText ∅,
         CallEvent.precision sampleText] :=
  (evaluate_calls_in_order mockEvaluator sampleText ∅).2 ⟨1⟩ ⟨1 / 2⟩
    ⟨4 / 5⟩ rfl rfl rfl

/-- C3: calling `evaluate` with the `replacement_words` argument omitted
returns the same Result as passing an empty set explicitly. -/
theorem evaluate_omitted_replacements (ev : VocabularyEvaluator ε)
    (t : String) : ev.evaluateNoArg t = ev.evaluate t ∅ := rfl

/-- C4: a collaborator failure is the outcome of `evaluate`, unmodified
(no retry, no wrapping, no translation), and every failure of `evaluate`
is a collaborator's failure, so no error kind originates here. -/
theorem evaluate_error_passthrough (ev : VocabularyEvaluator ε) (t : String)
    (rw : Finset (String × String)) :
    (∀ e, ev.lexical_diversity_checker t = .error e →
        ev.evaluate t rw = .error e)
    ∧ (∀ d e, ev.lexical_diversity_checker t = .ok d →
        ev.sophistication_checker t rw = .error e →
        ev.evaluate t rw = .error e)
    ∧ (∀ d s e, ev.lexical_diversity_checker t = .ok d →
        ev.sophistication_checker t rw = .ok s →
        ev.precision_checker t = .error e →
        ev.evaluate t rw = .error e)
    ∧ (∀ e, ev.evaluate t rw = .error e →
        ev.lexical_diversity_checker t = .error e
          ∨ ev.sophistication_checker t rw = .error e
          ∨ ev.precision_checker t = .error e) := by
  refine ⟨fun e he => ?_, fun d e hd he => ?_, fun d s e hd hs he => ?_,
    fun e h => ?_⟩
  · simp [VocabularyEvaluator.evaluate, he, Except.instMonad, Except.bind]
  · simp [VocabularyEvaluator.evaluate, hd, he, Except.instMonad,
      Except.bind]
  · simp [VocabularyEvaluator.evaluate, hd, hs, he, Except.instMonad,
      Except.bind]
  · rcases h1 : ev.lexical_diversity_checker t with e1 | d
    · have h0 : ev.evaluate t rw = .error e1 := by
        simp [VocabularyEvaluator.evaluate, h1, Except.instMonad,
          Except.bind]
      rw [h0] at h
      injection h with h
      rw [← h]
      exact Or.inl rfl
    · rcases h2 : ev.sophistication_checker t rw with e2 | s
      · have h0 : ev.evaluate t rw = .error e2 := by
          simp [VocabularyEvaluator.evaluate, h1, h2, Except.instMonad,
            Except.bind]
        rw [h0] at h
        injection h with h
        rw [← h]
        exact Or.inr (Or.inl rfl)
      · rcases h3 : ev.precision_checker t with e3 | p
        · have h0 : ev.evaluate t rw = .error e3 := by
            simp [VocabularyEvaluator.evaluate, h1, h2, h3,
              Except.instMonad, Except.bind]
          rw [h0] at h
          injection h with h
          rw [← h]
          exact Or.inr (Or.inr rfl)
        · rw [evaluate_ok ev t rw d s p h1 h2 h3] at h
          cases h

/-- Witness for C4 at the fixture whose diversity checker raises. -/
theorem evaluate_error_passthrough_witness :
    failingDiversityEvaluator.evaluate sampleText ∅ = .error () :=
  (evaluate_error_passthrough failingDiversityEvaluator sampleText ∅).1
    () rfl

/-- C5: the Result constructed by `evaluate` carries exactly the
sub-results the collaborators returned in that call; in this value model a
Result is built fresh by the final constructor application and is never
mutated afterwards. -/
theorem evaluate_result_fields (ev : VocabularyEvaluator ε) (t : String)
    (rw : Finset (String × String)) (d : LexicalDiversityResult)
    (s : SophisticationResult) (p : PrecisionResult)
    (hd : ev.lexical_diversity_checker t = .ok d)
    (hs : ev.sophistication_checker t rw = .ok s)
    (hp : ev.precision_checker t = .ok p) :
    ∀ r, ev.evaluate t rw = .ok r →
      r.sophistication = s ∧ r.precision = p ∧ r.lexical_diversity = d := by
  intro r h
  rw [evaluate_ok ev t rw d s p hd hs hp] at h
  injection h with h
  rw [← h]
  exact ⟨rfl, rfl, rfl⟩

/-- Witness for C5 at the worked-scenario fixture. -/
theorem evaluate_result_fields_witness :
    mockResult.sophistication = ⟨1 / 2⟩ ∧ mockResult.precision = ⟨4 / 5⟩
      ∧ mockResult.lexical_diversity = ⟨1⟩ :=
  evaluate_result_fields mockEvaluator sampleText ∅ ⟨1⟩ ⟨1 / 2⟩ ⟨4 / 5⟩
    rfl rfl rfl mockResult mockEvaluator_evaluate

/-- C6: two `evaluate` calls on identical inputs whose collaborators
return the same outputs on those inputs yield identical Result values. -/
theorem evaluate_deterministic (ev1 ev2 : VocabularyEvaluator ε)
    (t : String) (rw : Finset (String × String))
    (h1 : ev1.lexical_diversity_checker t = ev2.lexical_diversity_checker t)
    (h2 : ev1.sophistication_checker t rw = ev2.sophistication_checker t rw)
    (h3 : ev1.precision_checker t = ev2.precision_checker t) :
    ev1.evaluate t rw = ev2.evaluate t rw := by
  unfold VocabularyEvaluator.evaluate
  rw [h1, h2, h3]

/-- Witness for C6: two syntactically different evaluators that agree on
the sample text produce the same Result there. -/
theorem evaluate_deterministic_witness :
    mockEvaluator.evaluate sampleText ∅
      = mockEvaluator2.evaluate sampleText ∅ :=
  evaluate_deterministic mockEvaluator mockEvaluator2 sampleText ∅
    rfl rfl rfl

/-- C7: with sub-scores in [0,1], weights in [0,1] summing to 1, the
composite score lies in [0,1]; and the three modelled weight constants
satisfy those conditions. -/
theorem evaluate_score_bounds :
    (0 ≤ LEXICAL_DIVERSITY_WEIGHT ∧ LEXICAL_DIVERSITY_WEIGHT ≤ 1
      ∧ 0 ≤ SOPHISTICATION_WEIGHT ∧ SOPHISTICATION_WEIGHT ≤ 1
      ∧ 0 ≤ PRECISION_WEIGHT ∧ PRECISION_WEIGHT ≤ 1
      ∧ LEXICAL_DIVERSITY_WEIGHT + SOPHISTICATION_WEIGHT
          + PRECISION_WEIGHT = 1)
    ∧ (∀ w1 w2 w3 d s p : ℚ, 0 ≤ w1 → w1 ≤ 1 → 0 ≤ w2 → w2 ≤ 1 →
        0 ≤ w3 → w3 ≤ 1 → w1 + w2 + w3 = 1 →
        0 ≤ d → d ≤ 1 → 0 ≤ s → s ≤ 1 → 0 ≤ p → p ≤ 1 →
        0 ≤ round3 (d * w1 + s * w2 + p * w3)
          ∧ round3 (d * w1 + s * w2 + p * w3) ≤ 1)
    ∧ (∀ (α : Type) (ev : VocabularyEvaluator α) (t : String)
        (rw : Finset (String × String)) d s p,
        ev.lexical_diversity_checker t = .ok d →
        ev.sophistication_checker t rw = .ok s →
        ev.precision_checker t = .ok p →
        0 ≤ d.ttr → d.ttr ≤ 1 → 0 ≤ s.score → s.score ≤ 1 →
        0 ≤ p.score → p.score ≤ 1 →
        ∀ r, ev.evaluate t rw = .ok r → 0 ≤ r.score ∧ r.score ≤ 1) := by
  have wfacts : 0 ≤ LEXICAL_DIVERSITY_WEIGHT ∧ LEXICAL_DIVERSITY_WEIGHT ≤ 1
      ∧ 0 ≤ SOPHISTICATION_WEIGHT ∧ SOPHISTICATION_WEIGHT ≤ 1
      ∧ 0 ≤ PRECISION_WEIGHT ∧ PRECISION_WEIGHT ≤ 1
      ∧ LEXICAL_DIVERSITY_WEIGHT + SOPHISTICATION_WEIGHT
          + PRECISION_WEIGHT = 1 := by
    norm_num [LEXICAL_DIVERSITY_WEIGHT, SOPHISTICATION_WEIGHT,
      PRECISION_WEIGHT]
  have general : ∀ w1 w2 w3 d s p : ℚ, 0 ≤ w1 → w1 ≤ 1 → 0 ≤ w2 → w2 ≤ 1 →
      0 ≤ w3 → w3 ≤ 1 → w1 + w2 + w3 = 1 →
      0 ≤ d → d ≤ 1 → 0 ≤ s → s ≤ 1 → 0 ≤ p → p ≤ 1 →
      0 ≤ round3 (d * w1 + s * w2 + p * w3)
        ∧ round3 (d * w1 + s * w2 + p * w3) ≤ 1 := by
    intro w1 w2 w3 d s p hw10 hw11 hw20 hw21 hw30 hw31 hsum hd0 hd1 hs0
      hs1 hp0 hp1
    have hc0 : 0 ≤ d * w1 + s * w2 + p * w3 := by positivity
    have hc1 : d * w1 + s * w2 + p * w3 ≤ 1 := by nlinarith
    exact ⟨round3_nonneg _ hc0, round3_le_one _ hc1⟩
  refine ⟨wfacts, general, ?_⟩
  intro α ev t rw d s p hd hs hp h1 h2 h3 h4 h5 h6 r hr
  rw [evaluate_ok ev t rw d s p hd hs hp] at hr
  injection hr with hr
  rw [← hr]
  exact general LEXICAL_DIVERSITY_WEIGHT SOPHISTICATION_WEIGHT
    PRECISION_WEIGHT d.ttr s.score p.score wfacts.1 wfacts.2.1
    wfacts.2.2.1 wfacts.2.2.2.1 wfacts.2.2.2.2.1 wfacts.2.2.2.2.2.1
    wfacts.2.2.2.2.2.2 h1 h2 h3 h4 h5 h6

/-- Witness for C7 at the all-ones fixture. -/
theorem evaluate_score_bounds_witness :
    0 ≤ (⟨1, ⟨1⟩, ⟨1⟩, ⟨1⟩⟩ : VocabularyResult).score
      ∧ (⟨1, ⟨1⟩, ⟨1⟩, ⟨1⟩⟩ : VocabularyResult).score ≤ 1 :=
  evaluate_score_bounds.2.2 Unit onesEvaluator sampleText ∅ ⟨1⟩ ⟨1⟩ ⟨1⟩
    rfl rfl rfl zero_le_one le_rfl zero_le_one le_rfl zero_le_one le_rfl
    ⟨1, ⟨1⟩, ⟨1⟩, ⟨1⟩⟩ onesEvaluator_evaluate

/-- C8: with mocked ttr 1.0, sophistication score 0.5, precision score
0.8 and weights (0.3, 0.3, 0.4), `evaluate` returns a Result whose score
is `round(0.3 + 0.15 + 0.32, 3) = 0.77`. -/
theorem evaluate_worked_scenario :
    mockEvaluator.evaluate sampleText ∅
        = .ok ⟨round3 (3 / 10 + 15 / 100 + 32 / 100), ⟨1 / 2⟩, ⟨4 / 5⟩, ⟨1⟩⟩
      ∧ round3 (3 / 10 + 15 / 100 + 32 / 100) = 77 / 100 := by
  have h2 : round3 (3 / 10 + 15 / 100 + 32 / 100 : ℚ) = 77 / 100 := by
    norm_num [round3, roundHalfEvenInt]
  refine ⟨?_, h2⟩
  rw [mockEvaluator_evaluate, h2]
  rfl

/-- C9: `evaluate` writes no shared mutable state: in the state-threaded
run, the evaluator's checker fields and the caller's replacement set after
the call equal their values before it, and the computed outcome is that of
`evaluate`. -/
theorem evaluate_state_unchanged (ev : VocabularyEvaluator ε) (t : String)
    (rw : Finset (String × String)) :
    (ev.evaluateState t rw).2 = (ev, rw)
      ∧ (ev.evaluateState t rw).1 = ev.evaluate t rw := by
  unfold VocabularyEvaluator.evaluateState VocabularyEvaluator.evaluate
  rcases h1 : ev.lexical_diversity_checker t with e1 | d <;>
    rcases h2 : ev.sophistication_checker t rw with e2 | s <;>
      rcases h3 : ev.precision_checker t with e3 | p <;>
        simp [h1, h2, h3, Except.instMonad, Except.bind, Except.pure]

/-- C10: every collaborator invocation of a call receives the text
argument unchanged; the replacement set goes, unchanged, to the
sophistication checker only (the diversity and precision invocations
carry no replacement set); and on a fully successful call all three
collaborators receive their arguments this way. -/
theorem evaluate_argument_passing (ev : VocabularyEvaluator ε) (t : String)
    (rw : Finset (String × String)) :
    (∀ e ∈ (ev.evaluateTrace t rw).2,
        e = CallEvent.diversity t ∨ e = CallEvent.sophistication t rw
          ∨ e = CallEvent.precision t)
    ∧ (∀ d s p, ev.lexical_diversity_checker t = .ok d →
        ev.sophistication_checker t rw = .ok s →
        ev.precision_checker t = .ok p →
        (ev.evaluateTrace t rw).2
          = [CallEvent.diversity t, CallEvent.sophistication t rw,
             CallEvent.precision t]) := by
  constructor
  · unfold VocabularyEvaluator.evaluateTrace
    rcases h1 : ev.lexical_diversity_checker t with e1 | d <;>
      rcases h2 : ev.sophistication_checker t rw with e2 | s <;>
        rcases h3 : ev.precision_checker t with e3 | p <;>
          · intro e he
            simp only [List.mem_cons, List.not_mem_nil, or_false] at he
            tauto
  · intro d s p hd hs hp
    unfold VocabularyEvaluator.evaluateTrace
    simp [hd, hs, hp]

/-- Witness for C10 at the scenario fixture with a nonempty replacement
set. -/
theorem evaluate_argument_passing_witness :
    (mockEvaluator.evaluateTrace sampleText sampleReplacements).2
      = [CallEvent.diversity sampleText,
         CallEvent.sophistication sampleText sampleReplacements,
         CallEvent.precision sampleText] :=
  (evaluate_argument_passing mockEvaluator sampleText sampleReplacements).2
    ⟨1⟩ ⟨1 / 2⟩ ⟨4 / 5⟩ rfl rfl rfl

end ScoreEngine
